import Mathlib

/-!
Verification of the message dispatch and routing engine of a QQ-to-Dify
bridge, shallowly embedded from src/message_listener.py.

The embedding models `MessageListener.handler`, `process_private_message`
and `process_group_message` as pure functions from a decoded frame to the
list of observable events they emit (log lines, plugin invocations, policy
lookups, backend calls, outbound websocket sends), or to the Python
exception that escapes them.  The external collaborators that are not part
of the source file (plugin manager, Dify client/receiver, group
configuration store) are abstracted as function-valued parameters of an
`Env` record, following the interface contracts the spec gives them.
-/

/-- The sender object of an inbound frame (`msg_data["sender"]`).  Only the
`user_id` key is read by the listener. -/
structure Sender where
  user_id : Int
  deriving Repr, DecidableEq

/-- A decoded JSON frame as the listener reads it.  Each field models a
dictionary key that may be absent (`none` = key missing), matching the
`.get` / `[...]` accesses in the source. -/
structure MsgData where
  post_type : Option String
  meta_event_type : Option String
  message_type : Option String
  sender : Option Sender
  raw_message : Option String
  group_id : Option Int
  deriving Repr, DecidableEq

/-- Result of `plugin_manager.handle_message`: the `{handled, reply}`
record; `reply = none` models Python `None` (claimed but suppressed). -/
structure PluginResult where
  handled : Bool
  reply : Option String
  deriving Repr, DecidableEq

/-- A per-group configuration record; `enabled = none` models a record
with no `enabled` key. -/
structure GroupSetting where
  enabled : Option Bool
  deriving Repr, DecidableEq

/-- An outbound OneBot action frame as built at lines 55-62, 74-81,
105-112 and 124-131 of the source: `{action, params: {id, message},
echo}`. -/
structure OutAction where
  action : String
  target_id : Int
  message : String
  echo : String
  deriving Repr, DecidableEq

/-- Observable events emitted while one frame is processed. -/
inductive Event where
  | logInfo (tag : String)
  | logDebug (tag : String)
  | logWarning (tag : String)
  | logError (tag : String)
  | pluginLoad
  | pluginCall (m : MsgData)
  | policyLookup (g : Int)
  | backendCall (text : String) (ident : Int) (isGroup : Bool)
  | send (a : OutAction)
  | heartbeat (m : MsgData)
  | closeConn
  deriving Repr, DecidableEq

/-- Python exceptions that can escape the processing of one frame:
`json.loads` raising `JSONDecodeError`, or a `[...]` access on a missing
key raising `KeyError`. -/
inductive PyError where
  | jsonDecodeError
  | keyError (k : String)
  deriving Repr, DecidableEq

/-- The external collaborators of the listener.

* `plugin` — Modelled from the spec: `plugin_manager.handle_message`,
  the first-match plugin chain returning `{handled, reply}`; its module is
  not part of the source file, so it is kept abstract as a function.
* `dify` — Modelled from the spec: `dify_client.send_request` composed
  with `dify_receiver.process_response`; abstracted as a function from
  `(text, identity, isGroup)` to the extracted answer, `none` standing for
  a failed call / `None` answer.
* `config` — Modelled from the spec: `config_manager.get_group_chat_setting`,
  the read-only group policy store; the returned record has no `enabled`
  key when no explicit record exists for the group. -/
structure Env where
  plugin : MsgData → PluginResult
  dify : String → Int → Bool → Option String
  config : Int → GroupSetting

/-- Python truthiness of the extracted answer at `if answer:`: both `None`
and the empty string are falsy. -/
def pyTruthy : Option String → Bool
  | none => false
  | some s => !s.isEmpty

/-- Line 96 of the source: `group_setting.get('enabled', True)` — the
`enabled` key of the record, defaulting to `True` when absent. -/
def settingEnabled (s : GroupSetting) : Bool :=
  s.enabled.getD true

/-- The effective policy answer for a group: the stored record's
`enabled` key, defaulting to `True`. -/
def groupEnabled (env : Env) (g : Int) : Bool :=
  settingEnabled (env.config g)

/-- Embeds `MessageListener.process_private_message` (lines 44-85).
Returns the events emitted in order, or the uncaught exception.
`msg_data['sender']['user_id']` raises `KeyError` when the key is absent;
`msg_data.get('raw_message', '')` defaults to the empty string. -/
def process_private_message (env : Env) (m : MsgData) :
    Except PyError (List Event) :=
  match m.sender with
  | none => Except.error (PyError.keyError "sender")
  | some sender =>
    let user_id := sender.user_id
    let message_text := m.raw_message.getD ""
    let pr := env.plugin m
    let evs0 := [Event.logInfo "recv_private", Event.pluginCall m]
    if pr.handled then
      match pr.reply with
      | some r =>
        Except.ok (evs0 ++
          [Event.send ⟨"send_private_msg", user_id, r, "send_private_msg"⟩,
           Event.logDebug "sent_plugin_reply"])
      | none => Except.ok (evs0 ++ [Event.logDebug "plugin_suppressed"])
    else
      let answer := env.dify message_text user_id false
      let evs1 := evs0 ++ [Event.backendCall message_text user_id false]
      if pyTruthy answer then
        Except.ok (evs1 ++
          [Event.send ⟨"send_private_msg", user_id, answer.getD "",
             "send_private_msg"⟩,
           Event.logDebug "sent_dify_reply"])
      else
        Except.ok (evs1 ++ [Event.logError "no_valid_dify_response"])

/-- Embeds `MessageListener.process_group_message` (lines 87-135).
`msg_data['group_id']` and `msg_data['sender']['user_id']` raise
`KeyError` when absent; then the policy gate is consulted and, if the
group is not disabled, the plugin chain runs with Dify as fallback. -/
def process_group_message (env : Env) (m : MsgData) :
    Except PyError (List Event) :=
  match m.group_id with
  | none => Except.error (PyError.keyError "group_id")
  | some group_id =>
    match m.sender with
    | none => Except.error (PyError.keyError "sender")
    | some _sender =>
      let message_text := m.raw_message.getD ""
      let group_setting := env.config group_id
      let evs0 := [Event.logInfo "recv_group", Event.policyLookup group_id]
      if !(settingEnabled group_setting) then
        Except.ok (evs0 ++ [Event.logDebug "group_disabled"])
      else
        let pr := env.plugin m
        let evs1 := evs0 ++ [Event.pluginCall m]
        if pr.handled then
          match pr.reply with
          | some r =>
            Except.ok (evs1 ++
              [Event.send ⟨"send_group_msg", group_id, r, "send_group_msg"⟩,
               Event.logDebug "sent_plugin_reply"])
          | none => Except.ok (evs1 ++ [Event.logDebug "plugin_suppressed"])
        else
          let answer := env.dify message_text group_id true
          let evs2 := evs1 ++ [Event.backendCall message_text group_id true]
          if pyTruthy answer then
            Except.ok (evs2 ++
              [Event.send ⟨"send_group_msg", group_id, answer.getD "",
                 "send_group_msg"⟩,
               Event.logDebug "sent_dify_reply"])
          else
            Except.ok (evs2 ++ [Event.logError "no_valid_dify_response"])

/-- A raw websocket frame: either text that `json.loads` rejects, or text
that decodes to a `MsgData`. -/
inductive Frame where
  | malformed
  | parsed (m : MsgData)
  deriving Repr, DecidableEq

/-- Embeds the body of the receive loop for one frame (lines 29-37):
parse, classify on `post_type` / `meta_event_type` / `message_type`,
route.  A heartbeat is forwarded to the heartbeat handler only; frames of
unknown shape fall through with no effect. -/
def handle_frame (env : Env) (f : Frame) : Except PyError (List Event) :=
  match f with
  | Frame.malformed => Except.error PyError.jsonDecodeError
  | Frame.parsed m =>
    if m.post_type = some "meta_event" ∧ m.meta_event_type = some "heartbeat" then
      Except.ok [Event.heartbeat m]
    else if m.post_type = some "message" then
      if m.message_type = some "private" then
        (process_private_message env m).map
          (fun evs => Event.logDebug "recv_raw_qq" :: evs)
      else if m.message_type = some "group" then
        (process_group_message env m).map
          (fun evs => Event.logDebug "recv_raw_qq" :: evs)
      else
        Except.ok [Event.logDebug "recv_raw_qq"]
    else
      Except.ok []

/-- Embeds the `async for` receive loop (lines 28-37): frames are
processed strictly in order; the `try` around the loop catches only
`websockets.exceptions.ConnectionClosed`, so a `JSONDecodeError` or
`KeyError` raised while processing a frame propagates out, aborting the
loop before any later frame is seen.  Returns the events emitted before
the abort, paired with the escaping exception if any. -/
def handler_loop (env : Env) : List Frame → List Event × Option PyError
  | [] => ([], none)
  | f :: fs =>
    match handle_frame env f with
    | Except.error e => ([], some e)
    | Except.ok evs =>
      let rest := handler_loop env fs
      (evs ++ rest.1, rest.2)

/-- The listener's configured accept path. -/
structure Listener where
  path : String

/-- Embeds `MessageListener.handler` (lines 22-42): on a path match, log,
load plugins and run the receive loop over the connection's frames; on a
mismatch, warn and close the connection immediately, processing no
frame. -/
def handler (L : Listener) (env : Env) (reqPath : String)
    (frames : List Frame) : List Event × Option PyError :=
  if reqPath = L.path then
    let r := handler_loop env frames
    (Event.logInfo "connected" :: Event.pluginLoad :: r.1, r.2)
  else
    ([Event.logWarning "unknown_path", Event.closeConn], none)

/-- The outbound actions among a list of events. -/
def eventSends (evs : List Event) : List OutAction :=
  evs.filterMap fun e =>
    match e with
    | Event.send a => some a
    | _ => none

/-- The AI-backend invocations among a list of events, with their
arguments `(text, identity, isGroup)`. -/
def eventBackendCalls (evs : List Event) : List (String × Int × Bool) :=
  evs.filterMap fun e =>
    match e with
    | Event.backendCall t i g => some (t, i, g)
    | _ => none

/-- The plugin-chain invocations among a list of events, with the frame
passed to the chain. -/
def eventPluginCalls (evs : List Event) : List MsgData :=
  evs.filterMap fun e =>
    match e with
    | Event.pluginCall m => some m
    | _ => none

/-- The outbound actions an extracted backend answer gives rise to: one
action carrying the answer when it is a non-empty string, none when the
answer is empty or the call failed. -/
def answerSends (kind : String) (target : Int) (ans : Option String) :
    List OutAction :=
  match ans with
  | some a => if a.isEmpty then [] else [⟨kind, target, a, kind⟩]
  | none => []

/-- A concrete plugin chain in which no plugin claims any message. -/
def plugin0 : MsgData → PluginResult := fun _ => ⟨false, none⟩

/-- A concrete plugin chain whose first unit claims every message and
replies `"pong"`. -/
def pluginPong : MsgData → PluginResult := fun _ => ⟨true, some "pong"⟩

/-- A concrete plugin chain that claims every message but suppresses the
reply. -/
def pluginMute : MsgData → PluginResult := fun _ => ⟨true, none⟩

/-- A concrete backend answering `"hello"` to every request. -/
def dify0 : String → Int → Bool → Option String := fun _ _ _ => some "hello"

/-- A concrete policy store: group 100 has an explicit record with
`enabled = false`; every other group has no explicit record. -/
def config0 : Int → GroupSetting :=
  fun g => if g = 100 then ⟨some false⟩ else ⟨none⟩

/-- Environment for witnesses: no plugin claims, backend answers
`"hello"`, group 100 disabled. -/
def env0 : Env := ⟨plugin0, dify0, config0⟩

/-- Environment for witnesses: every message claimed with reply
`"pong"`. -/
def envPong : Env := ⟨pluginPong, dify0, config0⟩

/-- Environment for witnesses: every message claimed, reply
suppressed. -/
def envMute : Env := ⟨pluginMute, dify0, config0⟩

/-- A concrete sender with user id 42. -/
def sender42 : Sender := ⟨42⟩

/-- A concrete private message frame from user 42 with text `"hi"`. -/
def privMsg : MsgData :=
  ⟨some "message", none, some "private", some sender42, some "hi", none⟩

/-- A concrete group message frame to group 200 (no explicit policy
record under `config0`). -/
def groupMsg : MsgData :=
  ⟨some "message", none, some "group", some sender42, some "hi", some 200⟩

/-- A concrete group message frame to group 100 (explicitly disabled
under `config0`). -/
def groupMsg100 : MsgData :=
  ⟨some "message", none, some "group", some sender42, some "hi", some 100⟩

/-- A concrete private message frame whose `raw_message` key is
absent. -/
def privMsgNoRaw : MsgData :=
  ⟨some "message", none, some "private", some sender42, none, none⟩

/-- A concrete heartbeat frame. -/
def hbMsg : MsgData :=
  ⟨some "meta_event", some "heartbeat", none, none, none, none⟩

/-- A concrete listener accepting path `"/ws"`. -/
def listener0 : Listener := ⟨"/ws"⟩

/-- The events a private dispatch emits after logging and invoking the
plugin chain: the plugin branch or the Dify fallback branch of
`process_private_message`. -/
def privateTail (env : Env) (m : MsgData) (u : Int) : List Event :=
  let pr := env.plugin m
  if pr.handled then
    match pr.reply with
    | some r =>
      [Event.send ⟨"send_private_msg", u, r, "send_private_msg"⟩,
       Event.logDebug "sent_plugin_reply"]
    | none => [Event.logDebug "plugin_suppressed"]
  else
    let answer := env.dify (m.raw_message.getD "") u false
    Event.backendCall (m.raw_message.getD "") u false ::
      (if pyTruthy answer then
        [Event.send ⟨"send_private_msg", u, answer.getD "",
           "send_private_msg"⟩,
         Event.logDebug "sent_dify_reply"]
      else [Event.logError "no_valid_dify_response"])

/-- The events a group dispatch emits once past the policy gate, after
logging and invoking the plugin chain: the plugin branch or the Dify
fallback branch of `process_group_message`. -/
def groupTail (env : Env) (m : MsgData) (g : Int) : List Event :=
  let pr := env.plugin m
  if pr.handled then
    match pr.reply with
    | some r =>
      [Event.send ⟨"send_group_msg", g, r, "send_group_msg"⟩,
       Event.logDebug "sent_plugin_reply"]
    | none => [Event.logDebug "plugin_suppressed"]
  else
    let answer := env.dify (m.raw_message.getD "") g true
    Event.backendCall (m.raw_message.getD "") g true ::
      (if pyTruthy answer then
        [Event.send ⟨"send_group_msg", g, answer.getD "",
           "send_group_msg"⟩,
         Event.logDebug "sent_dify_reply"]
      else [Event.logError "no_valid_dify_response"])

/-- Normal form of `process_private_message` when the `sender` key is
present: it always succeeds, logging, invoking the plugin chain, then
emitting `privateTail`. -/
lemma process_private_message_eq (env : Env) (m : MsgData) (s : Sender)
    (hs : m.sender = some s) :
    process_private_message env m = Except.ok
      (Event.logInfo "recv_private" :: Event.pluginCall m ::
        privateTail env m s.user_id) := by
  rcases hpr : env.plugin m with ⟨h, r⟩
  cases h <;> cases r <;>
    simp [process_private_message, privateTail, hs, hpr] <;>
    split <;> simp

/-- Normal form of `process_group_message` when `group_id` and `sender`
are present and the policy gate allows the group: it succeeds, logging,
consulting the policy store, invoking the plugin chain, then emitting
`groupTail`. -/
lemma process_group_message_enabled_eq (env : Env) (m : MsgData)
    (g : Int) (s : Sender)
    (hg : m.group_id = some g) (hs : m.sender = some s)
    (hen : settingEnabled (env.config g) = true) :
    process_group_message env m = Except.ok
      (Event.logInfo "recv_group" :: Event.policyLookup g ::
        Event.pluginCall m :: groupTail env m g) := by
  rcases hpr : env.plugin m with ⟨h, r⟩
  cases h <;> cases r <;>
    simp [process_group_message, groupTail, hg, hs, hen, hpr] <;>
    split <;> simp

/-- The plugin branch of `privateTail` when the chain claims the message
with a reply. -/
lemma privateTail_handled_reply (env : Env) (m : MsgData) (u : Int)
    (r : String) (hh : (env.plugin m).handled = true)
    (hr : (env.plugin m).reply = some r) :
    privateTail env m u =
      [Event.send ⟨"send_private_msg", u, r, "send_private_msg"⟩,
       Event.logDebug "sent_plugin_reply"] := by
  simp [privateTail, hh, hr]

/-- The plugin branch of `privateTail` when the chain claims the message
and suppresses the reply. -/
lemma privateTail_handled_noreply (env : Env) (m : MsgData) (u : Int)
    (hh : (env.plugin m).handled = true)
    (hr : (env.plugin m).reply = none) :
    privateTail env m u = [Event.logDebug "plugin_suppressed"] := by
  simp [privateTail, hh, hr]

/-- The fallback branch of `privateTail` when no plugin claims the
message. -/
lemma privateTail_unhandled (env : Env) (m : MsgData) (u : Int)
    (hh : (env.plugin m).handled = false) :
    privateTail env m u =
      Event.backendCall (m.raw_message.getD "") u false ::
        (if pyTruthy (env.dify (m.raw_message.getD "") u false) then
          [Event.send ⟨"send_private_msg", u,
             (env.dify (m.raw_message.getD "") u false).getD "",
             "send_private_msg"⟩,
           Event.logDebug "sent_dify_reply"]
        else [Event.logError "no_valid_dify_response"]) := by
  simp [privateTail, hh]

/-- The plugin branch of `groupTail` when the chain claims the message
with a reply. -/
lemma groupTail_handled_reply (env : Env) (m : MsgData) (g : Int)
    (r : String) (hh : (env.plugin m).handled = true)
    (hr : (env.plugin m).reply = some r) :
    groupTail env m g =
      [Event.send ⟨"send_group_msg", g, r, "send_group_msg"⟩,
       Event.logDebug "sent_plugin_reply"] := by
  simp [groupTail, hh, hr]

/-- The plugin branch of `groupTail` when the chain claims the message
and suppresses the reply. -/
lemma groupTail_handled_noreply (env : Env) (m : MsgData) (g : Int)
    (hh : (env.plugin m).handled = true)
    (hr : (env.plugin m).reply = none) :
    groupTail env m g = [Event.logDebug "plugin_suppressed"] := by
  simp [groupTail, hh, hr]

/-- The fallback branch of `groupTail` when no plugin claims the
message. -/
lemma groupTail_unhandled (env : Env) (m : MsgData) (g : Int)
    (hh : (env.plugin m).handled = false) :
    groupTail env m g =
      Event.backendCall (m.raw_message.getD "") g true ::
        (if pyTruthy (env.dify (m.raw_message.getD "") g true) then
          [Event.send ⟨"send_group_msg", g,
             (env.dify (m.raw_message.getD "") g true).getD "",
             "send_group_msg"⟩,
           Event.logDebug "sent_dify_reply"]
        else [Event.logError "no_valid_dify_response"]) := by
  simp [groupTail, hh]

/-- Claim C1, counterexample: with no plugin claiming and a healthy
backend, a connection delivering a malformed frame followed by a valid
heartbeat frame aborts the receive loop at the malformed frame: the
`JSONDecodeError` escapes (terminating the connection handling), nothing
is logged, and the second frame is never processed — contradicting the
claim that a parse error is logged and the loop continues. -/
theorem c1_parse_error_counterexample :
    (handler_loop env0 [Frame.malformed, Frame.parsed hbMsg]).2 =
        some PyError.jsonDecodeError ∧
    (handler_loop env0 [Frame.malformed, Frame.parsed hbMsg]).1 = [] := by
  constructor <;> rfl

/-- Claim C1, amended: a frame whose processing raises (invalid JSON, or
a missing `sender`/`group_id` key) aborts the receive loop — the
exception propagates past the `async for`, no error is logged, and no
later frame of the connection is processed; only `ConnectionClosed` is
caught. -/
theorem c1_frame_error_aborts_loop (env : Env) (f : Frame)
    (fs : List Frame) (e : PyError)
    (h : handle_frame env f = Except.error e) :
    handler_loop env (f :: fs) = ([], some e) := by
  simp [handler_loop, h]

/-- Witness for C1 amended: the malformed frame raises `JSONDecodeError`
and the loop over `[malformed, heartbeat]` aborts with it, emitting no
events. -/
theorem c1_frame_error_aborts_loop_witness :
    handle_frame env0 Frame.malformed = Except.error PyError.jsonDecodeError ∧
    handler_loop env0 [Frame.malformed, Frame.parsed hbMsg] =
      ([], some PyError.jsonDecodeError) :=
  ⟨rfl, c1_frame_error_aborts_loop env0 Frame.malformed
      [Frame.parsed hbMsg] PyError.jsonDecodeError rfl⟩

/-- Claim C6: a heartbeat frame (`post_type = meta_event`,
`meta_event_type = heartbeat`) is only forwarded to the heartbeat
monitor; the events it produces contain no outbound action. -/
theorem c6_heartbeat_no_outbound (env : Env) (m : MsgData)
    (h1 : m.post_type = some "meta_event")
    (h2 : m.meta_event_type = some "heartbeat") :
    handle_frame env (Frame.parsed m) = Except.ok [Event.heartbeat m] ∧
    eventSends [Event.heartbeat m] = [] := by
  refine ⟨?_, rfl⟩
  simp [handle_frame, h1, h2]

/-- Witness for C6 at the concrete heartbeat frame. -/
theorem c6_heartbeat_no_outbound_witness :
    hbMsg.post_type = some "meta_event" ∧
    hbMsg.meta_event_type = some "heartbeat" ∧
    (handle_frame env0 (Frame.parsed hbMsg) =
        Except.ok [Event.heartbeat hbMsg] ∧
      eventSends [Event.heartbeat hbMsg] = []) :=
  ⟨rfl, rfl, c6_heartbeat_no_outbound env0 hbMsg rfl rfl⟩

/-- Claim C8: a connection whose requested path differs from the
configured listen path is warned about and closed immediately: whatever
frames the connection would deliver, the handler emits only the warning
and the close — no frame event, no plugin load, no plugin call, no
outbound action. -/
theorem c8_path_mismatch_closes (L : Listener) (env : Env)
    (reqPath : String) (frames : List Frame) (h : reqPath ≠ L.path) :
    handler L env reqPath frames =
      ([Event.logWarning "unknown_path", Event.closeConn], none) ∧
    eventSends [Event.logWarning "unknown_path", Event.closeConn] = [] ∧
    eventPluginCalls [Event.logWarning "unknown_path", Event.closeConn] = [] ∧
    Event.pluginLoad ∉ [Event.logWarning "unknown_path", Event.closeConn] := by
  refine ⟨?_, rfl, rfl, by decide⟩
  simp [handler, h]

/-- Witness for C8: a connection to `"/bad"` against configured path
`"/ws"`, with a pending private frame that is never processed. -/
theorem c8_path_mismatch_closes_witness :
    "/bad" ≠ listener0.path ∧
    (handler listener0 env0 "/bad" [Frame.parsed privMsg] =
        ([Event.logWarning "unknown_path", Event.closeConn], none) ∧
      eventSends [Event.logWarning "unknown_path", Event.closeConn] = [] ∧
      eventPluginCalls [Event.logWarning "unknown_path", Event.closeConn] = [] ∧
      Event.pluginLoad ∉ [Event.logWarning "unknown_path", Event.closeConn]) :=
  ⟨by decide, c8_path_mismatch_closes listener0 env0 "/bad"
      [Frame.parsed privMsg] (by decide)⟩

/-- Claim C10: private message handling never consults the group policy
store — two runs of `process_private_message` on the same frame, in
environments that differ only in the policy store, produce identical
results (same plugin invocation, same backend call, same outbound
action, same logs). -/
theorem c10_private_ignores_policy_store (p : MsgData → PluginResult)
    (d : String → Int → Bool → Option String)
    (cfgA cfgB : Int → GroupSetting) (m : MsgData) :
    process_private_message ⟨p, d, cfgA⟩ m =
      process_private_message ⟨p, d, cfgB⟩ m := rfl

/-- Claim C2: a group frame whose policy record has `enabled = false` is
short-circuited at the policy gate: the dispatch returns after the
lookup with no plugin invocation, no backend call, and no outbound
action. -/
theorem c2_disabled_group_short_circuits (env : Env) (m : MsgData)
    (g : Int) (s : Sender)
    (hg : m.group_id = some g) (hs : m.sender = some s)
    (hdis : (env.config g).enabled = some false) :
    ∃ evs, process_group_message env m = Except.ok evs ∧
      eventPluginCalls evs = [] ∧ eventBackendCalls evs = [] ∧
      eventSends evs = [] := by
  refine ⟨[Event.logInfo "recv_group", Event.policyLookup g,
      Event.logDebug "group_disabled"], ?_, rfl, rfl, rfl⟩
  simp [process_group_message, hg, hs, settingEnabled, hdis]

/-- Witness for C2: group 100 is explicitly disabled in `config0`, and
the concrete group frame to it is short-circuited. -/
theorem c2_disabled_group_short_circuits_witness :
    groupMsg100.group_id = some 100 ∧
    groupMsg100.sender = some sender42 ∧
    (env0.config 100).enabled = some false ∧
    (∃ evs, process_group_message env0 groupMsg100 = Except.ok evs ∧
      eventPluginCalls evs = [] ∧ eventBackendCalls evs = [] ∧
      eventSends evs = []) :=
  ⟨rfl, rfl, by decide, c2_disabled_group_short_circuits env0 groupMsg100
      100 sender42 rfl rfl (by decide)⟩

/-- Claim C7: a group with no explicit `enabled` record is treated as
enabled (opt-out model): its messages pass the policy gate, the plugin
chain is invoked with the frame, and when no plugin claims the message
the backend fallback is called for the group. -/
theorem c7_no_record_defaults_enabled (env : Env) (m : MsgData)
    (g : Int) (s : Sender)
    (hg : m.group_id = some g) (hs : m.sender = some s)
    (hrec : (env.config g).enabled = none) :
    groupEnabled env g = true ∧
    ∃ evs, process_group_message env m = Except.ok evs ∧
      eventPluginCalls evs = [m] ∧
      ((env.plugin m).handled = false →
        eventBackendCalls evs = [(m.raw_message.getD "", g, true)]) := by
  have hen : settingEnabled (env.config g) = true := by
    simp [settingEnabled, hrec]
  refine ⟨hen, Event.logInfo "recv_group" :: Event.policyLookup g ::
      Event.pluginCall m :: groupTail env m g,
    process_group_message_enabled_eq env m g s hg hs hen, ?_, ?_⟩
  · rcases hpr : env.plugin m with ⟨h, r⟩
    cases h <;> cases r <;>
      simp [eventPluginCalls, groupTail, hpr] <;> split <;> simp
  · intro hh
    rw [groupTail_unhandled env m g hh]
    split <;> simp [eventBackendCalls]

/-- Witness for C7: group 200 has no explicit record in `config0`; with
no plugin claiming, the backend is called once for group 200. -/
theorem c7_no_record_defaults_enabled_witness :
    groupMsg.group_id = some 200 ∧
    groupMsg.sender = some sender42 ∧
    (env0.config 200).enabled = none ∧
    (groupEnabled env0 200 = true ∧
      ∃ evs, process_group_message env0 groupMsg = Except.ok evs ∧
        eventPluginCalls evs = [groupMsg] ∧
        ((env0.plugin groupMsg).handled = false →
          eventBackendCalls evs = [(groupMsg.raw_message.getD "", 200, true)])) :=
  ⟨rfl, rfl, by decide, c7_no_record_defaults_enabled env0 groupMsg
      200 sender42 rfl rfl (by decide)⟩

/-- Claim C3: when the plugin chain claims a message with a non-empty
reply `R`, exactly one outbound action is produced — `send_private_msg`
to the sender for a private frame, `send_group_msg` to the group for a
group frame (the group one provided the policy gate passed, since a
disabled group never reaches the chain) — with message `R` and echo
equal to the action kind, and the backend is never called. -/
theorem c3_plugin_reply_routed (env : Env) (m : MsgData) (s : Sender)
    (r : String) (hs : m.sender = some s)
    (hh : (env.plugin m).handled = true)
    (hr : (env.plugin m).reply = some r) (_hne : r ≠ "") :
    (∃ evs, process_private_message env m = Except.ok evs ∧
        eventSends evs =
          [⟨"send_private_msg", s.user_id, r, "send_private_msg"⟩] ∧
        eventBackendCalls evs = []) ∧
    (∀ g, m.group_id = some g → groupEnabled env g = true →
      ∃ evs, process_group_message env m = Except.ok evs ∧
        eventSends evs = [⟨"send_group_msg", g, r, "send_group_msg"⟩] ∧
        eventBackendCalls evs = []) := by
  constructor
  · refine ⟨_, process_private_message_eq env m s hs, ?_, ?_⟩ <;>
      rw [privateTail_handled_reply env m s.user_id r hh hr] <;>
      simp [eventSends, eventBackendCalls]
  · intro g hg hen
    refine ⟨_, process_group_message_enabled_eq env m g s hg hs hen, ?_, ?_⟩ <;>
      rw [groupTail_handled_reply env m g r hh hr] <;>
      simp [eventSends, eventBackendCalls]

/-- Witness for C3: with every message claimed and answered `"pong"`,
the concrete group frame to enabled group 200 yields exactly the
`send_group_msg` action with echo `send_group_msg`, with no backend
call. -/
theorem c3_plugin_reply_routed_witness :
    groupMsg.sender = some sender42 ∧
    (envPong.plugin groupMsg).handled = true ∧
    (envPong.plugin groupMsg).reply = some "pong" ∧
    "pong" ≠ "" ∧
    ((∃ evs, process_private_message envPong groupMsg = Except.ok evs ∧
        eventSends evs =
          [⟨"send_private_msg", sender42.user_id, "pong",
             "send_private_msg"⟩] ∧
        eventBackendCalls evs = []) ∧
      (∀ g, groupMsg.group_id = some g → groupEnabled envPong g = true →
        ∃ evs, process_group_message envPong groupMsg = Except.ok evs ∧
          eventSends evs =
            [⟨"send_group_msg", g, "pong", "send_group_msg"⟩] ∧
          eventBackendCalls evs = [])) :=
  ⟨rfl, rfl, rfl, by decide, c3_plugin_reply_routed envPong groupMsg
      sender42 "pong" rfl rfl rfl (by decide)⟩

/-- Claim C4: when the plugin chain claims a message but returns no
reply, the dispatch returns silently — zero outbound actions and no
backend call — for private frames and for group frames past the policy
gate alike. -/
theorem c4_suppressed_reply_silent (env : Env) (m : MsgData) (s : Sender)
    (hs : m.sender = some s)
    (hh : (env.plugin m).handled = true)
    (hr : (env.plugin m).reply = none) :
    (∃ evs, process_private_message env m = Except.ok evs ∧
        eventSends evs = [] ∧ eventBackendCalls evs = []) ∧
    (∀ g, m.group_id = some g → groupEnabled env g = true →
      ∃ evs, process_group_message env m = Except.ok evs ∧
        eventSends evs = [] ∧ eventBackendCalls evs = []) := by
  constructor
  · refine ⟨_, process_private_message_eq env m s hs, ?_, ?_⟩ <;>
      rw [privateTail_handled_noreply env m s.user_id hh hr] <;>
      simp [eventSends, eventBackendCalls]
  · intro g hg hen
    refine ⟨_, process_group_message_enabled_eq env m g s hg hs hen, ?_, ?_⟩ <;>
      rw [groupTail_handled_noreply env m g hh hr] <;>
      simp [eventSends, eventBackendCalls]

/-- Witness for C4: with every message claimed and the reply suppressed,
the concrete group frame to enabled group 200 produces no outbound
action and no backend call. -/
theorem c4_suppressed_reply_silent_witness :
    groupMsg.sender = some sender42 ∧
    (envMute.plugin groupMsg).handled = true ∧
    (envMute.plugin groupMsg).reply = none ∧
    ((∃ evs, process_private_message envMute groupMsg = Except.ok evs ∧
        eventSends evs = [] ∧ eventBackendCalls evs = []) ∧
      (∀ g, groupMsg.group_id = some g → groupEnabled envMute g = true →
        ∃ evs, process_group_message envMute groupMsg = Except.ok evs ∧
          eventSends evs = [] ∧ eventBackendCalls evs = [])) :=
  ⟨rfl, rfl, rfl, c4_suppressed_reply_silent envMute groupMsg sender42
      rfl rfl rfl⟩

/-- The tails never invoke the plugin chain themselves (the invocation
event sits before them). -/
lemma eventPluginCalls_privateTail (env : Env) (m : MsgData) (u : Int) :
    eventPluginCalls (privateTail env m u) = [] := by
  rcases hpr : env.plugin m with ⟨h, r⟩
  cases h <;> cases r <;>
    simp [eventPluginCalls, privateTail, hpr] <;> split <;> simp

/-- The group tail never invokes the plugin chain itself. -/
lemma eventPluginCalls_groupTail (env : Env) (m : MsgData) (g : Int) :
    eventPluginCalls (groupTail env m g) = [] := by
  rcases hpr : env.plugin m with ⟨h, r⟩
  cases h <;> cases r <;>
    simp [eventPluginCalls, groupTail, hpr] <;> split <;> simp

/-- Claim C5: a message no plugin claims goes to the backend exactly
once — with the frame text, the sender id and `is_group = false` for a
private frame; the group id and `is_group = true` for a group frame past
the policy gate — and the extracted answer determines the outbound
actions: exactly one action carrying a non-empty answer, zero actions
for an empty or failed answer. -/
theorem c5_backend_fallback (env : Env) (m : MsgData) (s : Sender)
    (hs : m.sender = some s)
    (hh : (env.plugin m).handled = false) :
    (∃ evs, process_private_message env m = Except.ok evs ∧
        eventBackendCalls evs =
          [(m.raw_message.getD "", s.user_id, false)] ∧
        eventSends evs = answerSends "send_private_msg" s.user_id
          (env.dify (m.raw_message.getD "") s.user_id false)) ∧
    (∀ g, m.group_id = some g → groupEnabled env g = true →
      ∃ evs, process_group_message env m = Except.ok evs ∧
        eventBackendCalls evs = [(m.raw_message.getD "", g, true)] ∧
        eventSends evs = answerSends "send_group_msg" g
          (env.dify (m.raw_message.getD "") g true)) := by
  constructor
  · refine ⟨_, process_private_message_eq env m s hs, ?_, ?_⟩ <;>
      rw [privateTail_unhandled env m s.user_id hh]
    · split <;> simp [eventBackendCalls]
    · rcases hd : env.dify (m.raw_message.getD "") s.user_id false with _ | a
      · simp [eventSends, answerSends, pyTruthy, hd]
      · cases he : a.isEmpty <;>
          simp [eventSends, answerSends, pyTruthy, hd, he]
  · intro g hg hen
    refine ⟨_, process_group_message_enabled_eq env m g s hg hs hen, ?_, ?_⟩ <;>
      rw [groupTail_unhandled env m g hh]
    · split <;> simp [eventBackendCalls]
    · rcases hd : env.dify (m.raw_message.getD "") g true with _ | a
      · simp [eventSends, answerSends, pyTruthy, hd]
      · cases he : a.isEmpty <;>
          simp [eventSends, answerSends, pyTruthy, hd, he]

/-- Witness for C5: user 42 sends `"hi"` privately, no plugin claims,
the backend answers `"hello"`, so exactly one `send_private_msg` to user
42 carrying `"hello"` is produced. -/
theorem c5_backend_fallback_witness :
    privMsg.sender = some sender42 ∧
    (env0.plugin privMsg).handled = false ∧
    ((∃ evs, process_private_message env0 privMsg = Except.ok evs ∧
        eventBackendCalls evs =
          [(privMsg.raw_message.getD "", sender42.user_id, false)] ∧
        eventSends evs = answerSends "send_private_msg" sender42.user_id
          (env0.dify (privMsg.raw_message.getD "") sender42.user_id false)) ∧
      (∀ g, privMsg.group_id = some g → groupEnabled env0 g = true →
        ∃ evs, process_group_message env0 privMsg = Except.ok evs ∧
          eventBackendCalls evs =
            [(privMsg.raw_message.getD "", g, true)] ∧
          eventSends evs = answerSends "send_group_msg" g
            (env0.dify (privMsg.raw_message.getD "") g true))) :=
  ⟨rfl, rfl, c5_backend_fallback env0 privMsg sender42 rfl rfl⟩

/-- Claim C9: a message frame with no `raw_message` key does not make
the dispatch fail — the frame is still handed to the plugin chain, and
the text passed to the backend defaults to the empty string. -/
theorem c9_missing_raw_message_defaults (env : Env) (m : MsgData)
    (s : Sender) (hs : m.sender = some s) (hraw : m.raw_message = none) :
    (∃ evs, process_private_message env m = Except.ok evs ∧
        eventPluginCalls evs = [m] ∧
        ((env.plugin m).handled = false →
          eventBackendCalls evs = [("", s.user_id, false)])) ∧
    (∀ g, m.group_id = some g → groupEnabled env g = true →
      ∃ evs, process_group_message env m = Except.ok evs ∧
        eventPluginCalls evs = [m] ∧
        ((env.plugin m).handled = false →
          eventBackendCalls evs = [("", g, true)])) := by
  constructor
  · refine ⟨_, process_private_message_eq env m s hs, ?_, ?_⟩
    · have h1 := eventPluginCalls_privateTail env m s.user_id
      simp [eventPluginCalls] at h1 ⊢
      exact h1
    · intro hh
      rw [privateTail_unhandled env m s.user_id hh, hraw]
      split <;> simp [eventBackendCalls]
  · intro g hg hen
    refine ⟨_, process_group_message_enabled_eq env m g s hg hs hen, ?_, ?_⟩
    · have h1 := eventPluginCalls_groupTail env m g
      simp [eventPluginCalls] at h1 ⊢
      exact h1
    · intro hh
      rw [groupTail_unhandled env m g hh, hraw]
      split <;> simp [eventBackendCalls]

/-- Witness for C9: the concrete private frame with no `raw_message` key
dispatches without failure and calls the backend with the empty
string. -/
theorem c9_missing_raw_message_defaults_witness :
    privMsgNoRaw.sender = some sender42 ∧
    privMsgNoRaw.raw_message = none ∧
    ((∃ evs, process_private_message env0 privMsgNoRaw = Except.ok evs ∧
        eventPluginCalls evs = [privMsgNoRaw] ∧
        ((env0.plugin privMsgNoRaw).handled = false →
          eventBackendCalls evs = [("", sender42.user_id, false)])) ∧
      (∀ g, privMsgNoRaw.group_id = some g → groupEnabled env0 g = true →
        ∃ evs, process_group_message env0 privMsgNoRaw = Except.ok evs ∧
          eventPluginCalls evs = [privMsgNoRaw] ∧
          ((env0.plugin privMsgNoRaw).handled = false →
            eventBackendCalls evs = [("", g, true)]))) :=
  ⟨rfl, rfl, c9_missing_raw_message_defaults env0 privMsgNoRaw sender42
      rfl rfl⟩
